import Mathlib

/-!
Verification development for the real-time voice-session core
(`LiveSession` component and its `audioUtils` codec helpers).

The definitions below are a shallow embedding of the TypeScript source:

* `b64encode` / `b64decode` embed `arrayBufferToBase64` (i.e. `btoa` over a
  byte string) and `base64ToUint8Array` (i.e. `atob`) from `audioUtils`.
* `encodeSample` / `decodeSample` embed the 16-bit PCM conversion done by
  `createPcmBlob` (`int16[i] = data[i] * 32768`, with JavaScript's `ToInt16`
  truncate-and-wrap semantics) and `decodeAudioData`
  (`channelData[i] = dataInt16[i] / 32768.0`).  Audio samples are modelled as
  rationals: scaling by the power of two 32768, truncation, and the final
  division are all exact in IEEE binary floating point over the ranges
  involved, so the rational model computes the same values the code does.
* `SessionState`, `cleanup`, `startSession`, `processAudioChunk`,
  `endedEvent`, `turnCompleteEvent` embed the `LiveSession` React component's
  refs/state and its event handlers.
* `runToolCall` / `dispatchToolCalls` embed the `onmessage` tool-call loop
  and the four tool handlers' success/failure conversion.
-/

namespace Textgt

/-! ## Base64 codec (audioUtils: `arrayBufferToBase64` via `btoa`,
`base64ToUint8Array` via `atob`) -/

/-- The standard base64 alphabet used by `btoa`/`atob`. -/
def b64chars : List Char :=
  ['A','B','C','D','E','F','G','H','I','J','K','L','M','N','O','P',
   'Q','R','S','T','U','V','W','X','Y','Z',
   'a','b','c','d','e','f','g','h','i','j','k','l','m','n','o','p',
   'q','r','s','t','u','v','w','x','y','z',
   '0','1','2','3','4','5','6','7','8','9','+','/']

/-- Character for a 6-bit group. -/
def b64char (n : Nat) : Char := b64chars.getD n '?'

def b64indexAux (c : Char) : List Char → Nat → Option Nat
  | [], _ => none
  | d :: rest, i => if d = c then some i else b64indexAux c rest (i + 1)

/-- Position of a character in the base64 alphabet (`none` for an invalid
character, which makes `atob` throw). -/
def b64index (c : Char) : Option Nat := b64indexAux c b64chars 0

/-- `arrayBufferToBase64`: build the byte string and `btoa` it.  Bytes are
grouped in threes; a final group of one or two bytes is padded with `=`. -/
def b64encode : List Nat → List Char
  | [] => []
  | [a] => [b64char (a / 4), b64char (a % 4 * 16), '=', '=']
  | [a, b] => [b64char (a / 4), b64char (a % 4 * 16 + b / 16),
               b64char (b % 16 * 4), '=']
  | a :: b :: c :: rest =>
      b64char (a / 4) :: b64char (a % 4 * 16 + b / 16) ::
      b64char (b % 16 * 4 + c / 64) :: b64char (c % 64) :: b64encode rest

/-- `base64ToUint8Array`: `atob` the text and read the char codes back as
bytes.  `none` models the exception `atob` throws on invalid input. -/
def b64decode : List Char → Option (List Nat)
  | [] => some []
  | c1 :: c2 :: c3 :: c4 :: rest =>
      if c3 = '=' ∧ c4 = '=' ∧ rest = [] then
        match b64index c1, b64index c2 with
        | some s1, some s2 => some [s1 * 4 + s2 / 16]
        | _, _ => none
      else if c4 = '=' ∧ rest = [] then
        match b64index c1, b64index c2, b64index c3 with
        | some s1, some s2, some s3 =>
            some [s1 * 4 + s2 / 16, s2 % 16 * 16 + s3 / 4]
        | _, _, _ => none
      else
        match b64index c1, b64index c2, b64index c3, b64index c4 with
        | some s1, some s2, some s3, some s4 =>
            match b64decode rest with
            | some tail =>
                some ((s1 * 4 + s2 / 16) :: (s2 % 16 * 16 + s3 / 4) ::
                      (s3 % 4 * 64 + s4) :: tail)
            | none => none
        | _, _, _, _ => none
  | [c1, c2] =>
      match b64index c1, b64index c2 with
      | some s1, some s2 => some [s1 * 4 + s2 / 16]
      | _, _ => none
  | [c1, c2, c3] =>
      match b64index c1, b64index c2, b64index c3 with
      | some s1, some s2, some s3 =>
          some [s1 * 4 + s2 / 16, s2 % 16 * 16 + s3 / 4]
      | _, _, _ => none
  | _ => none

/-! ## 16-bit PCM codec (audioUtils: `createPcmBlob`, `decodeAudioData`) -/

/-- JavaScript number-to-integer conversion: truncation toward zero. -/
def truncQ (q : ℚ) : ℤ := if 0 ≤ q then ⌊q⌋ else ⌈q⌉

/-- JavaScript `ToInt16`: wrap an integer into `[-32768, 32767]` mod 2^16,
as happens on assignment into an `Int16Array`. -/
def toInt16 (i : ℤ) : ℤ :=
  if 32768 ≤ i % 65536 then i % 65536 - 65536 else i % 65536

/-- `createPcmBlob`: `int16[i] = data[i] * 32768` (truncate, then wrap). -/
def encodeSample (x : ℚ) : ℤ := toInt16 (truncQ (x * 32768))

/-- `decodeAudioData`: `channelData[i] = dataInt16[i] / 32768.0`. -/
def decodeSample (v : ℤ) : ℚ := (v : ℚ) / 32768

/-- `new Int16Array(data.buffer)`: two little-endian bytes become one
signed 16-bit sample. -/
def int16OfBytes (lo hi : Nat) : ℤ := toInt16 (lo + 256 * hi)

/-- The sample list `decodeAudioData` reads out of a byte buffer
(mono, as called with `numChannels = 1`). -/
def pcmDecode : List Nat → List ℚ
  | lo :: hi :: rest => decodeSample (int16OfBytes lo hi) :: pcmDecode rest
  | _ => []

/-! ## Session state (the `LiveSession` component's refs and React state) -/

/-- The `status` React state: `'disconnected' | 'connecting' | 'connected'
| 'error'`. -/
inductive SessionStatus
  | disconnected
  | connecting
  | connected
  | error
deriving DecidableEq, Repr

/-- The `activeCard` React state (`ActionCard` interface). -/
structure ActionCard where
  ctype : String
  title : String
  url : Option String
  content : Option String
deriving DecidableEq, Repr

/-- Observable external calls made by the component (stopping sources,
closing handles, opening the transport, ...). -/
inductive Effect
  | closeSession (id : Nat)
  | disconnectProcessor
  | disconnectSource
  | stopTracks
  | closeInputContext
  | closeAudioContext
  | cancelAnim (id : Nat)
  | stopSource (id : Nat)
  | acquireDevice
  | openTransport (id : Nat)
deriving DecidableEq, Repr

/-- The component's mutable refs and state.  Handles held in refs are
modelled by identifiers (`Option Nat` / `Bool` for presence). -/
structure SessionState where
  status : SessionStatus
  isConnected : Bool
  isSpeaking : Bool
  sessionRef : Option Nat
  processorRef : Bool
  sourceRef : Bool
  streamRef : Bool
  inputContextRef : Bool
  audioContextRef : Bool
  nextStartTime : ℚ
  scheduledSources : List Nat
  animRef : Nat
  activeCard : Option ActionCard
  isProcessingTool : Bool
deriving DecidableEq, Repr

/-- `cleanup()`: close the session promise if present, disconnect the
processor and source, stop the stream tracks, close both audio contexts,
cancel the animation frame, stop every scheduled source and clear the set,
then reset the React state.  `nextStartTimeRef` is not touched. -/
def cleanup (s : SessionState) : SessionState × List Effect :=
  let e1 := match s.sessionRef with
            | some id => [Effect.closeSession id]
            | none => []
  let e2 := if s.processorRef then [Effect.disconnectProcessor] else []
  let e3 := if s.sourceRef then [Effect.disconnectSource] else []
  let e4 := if s.streamRef then [Effect.stopTracks] else []
  let e5 := if s.inputContextRef then [Effect.closeInputContext] else []
  let e6 := if s.audioContextRef then [Effect.closeAudioContext] else []
  let e7 := if s.animRef ≠ 0 then [Effect.cancelAnim s.animRef] else []
  let e8 := s.scheduledSources.map Effect.stopSource
  ({ s with
      sessionRef := none
      processorRef := false
      sourceRef := false
      streamRef := false
      inputContextRef := false
      audioContextRef := false
      scheduledSources := []
      isConnected := false
      status := .disconnected
      isSpeaking := false
      activeCard := none
      isProcessingTool := false },
   e1 ++ e2 ++ e3 ++ e4 ++ e5 ++ e6 ++ e7 ++ e8)

/-- `startSession()`, up to the `ai.live.connect` call: set status
`'connecting'`, create both audio contexts, set the cursor to the (new)
audio clock, acquire the microphone (`getUserMedia`) and open the
transport.  `micOk` is the outcome of the `getUserMedia` await; on
rejection the surrounding `catch` runs `cleanup()` and sets status
`'error'`.  There is no check of the current state before any of this. -/
def startSession (s : SessionState) (now : ℚ) (micOk : Bool)
    (newSession : Nat) : SessionState × List Effect :=
  let s1 := { s with
      status := SessionStatus.connecting
      audioContextRef := true
      inputContextRef := true
      nextStartTime := now }
  if micOk then
    ({ s1 with streamRef := true, sessionRef := some newSession },
     [Effect.acquireDevice, Effect.openTransport newSession])
  else
    let (s2, es) := cleanup s1
    ({ s2 with status := SessionStatus.error }, Effect.acquireDevice :: es)

/-- The start control as rendered: the Start button exists only while
`!isConnected` and is disabled while `status === 'connecting'`; otherwise
clicking it calls `startSession`. -/
def startButton (s : SessionState) (now : ℚ) (micOk : Bool)
    (newSession : Nat) : SessionState × List Effect :=
  if s.isConnected = false ∧ s.status ≠ SessionStatus.connecting then
    startSession s now micOk newSession
  else (s, [])

/-! ## Playback scheduler (the audio branch of `onmessage`) -/

/-- `audioBuffer.duration` for a decoded sample list at 24 kHz. -/
def chunkDuration (samples : List ℚ) : ℚ := (samples.length : ℚ) / 24000

/-- Decoding one inbound chunk: `base64ToUint8Array` (throws on invalid
base64) then `new Int16Array(data.buffer)` (throws `RangeError` when the
byte length is not a multiple of 2), then the sample loop of
`decodeAudioData`.  `none` models a thrown exception. -/
def decodeChunk (payload : List Char) : Option (List ℚ) :=
  match b64decode payload with
  | none => none
  | some bytes =>
      if bytes.length % 2 = 0 then some (pcmDecode bytes) else none

/-- The audio branch of `onmessage` for one inbound chunk: if audio data is
present and the audio context exists, set `isSpeaking`, advance the cursor
to `max(cursor, currentTime)`, then decode; on success start a source at
the cursor, add the duration, and insert the source into the live set.  A
decode exception aborts the rest of the handler, after the cursor bump. -/
def processAudioChunk (s : SessionState) (now : ℚ) (payload : List Char)
    (newSrc : Nat) : SessionState :=
  if s.audioContextRef then
    let s1 := { s with isSpeaking := true }
    let s2 := { s1 with nextStartTime := max s1.nextStartTime now }
    match decodeChunk payload with
    | none => s2
    | some samples =>
        { s2 with
            nextStartTime := s2.nextStartTime + chunkDuration samples
            scheduledSources := newSrc :: s2.scheduledSources }
  else s

/-- The `'ended'` listener of a playback source: remove it from the set;
if the set became empty, clear `isSpeaking`. -/
def endedEvent (s : SessionState) (src : Nat) : SessionState :=
  let remaining := s.scheduledSources.erase src
  { s with
      scheduledSources := remaining
      isSpeaking := if remaining.length = 0 then false else s.isSpeaking }

/-- `if (msg.serverContent?.turnComplete) setIsSpeaking(false)`. -/
def turnCompleteEvent (s : SessionState) : SessionState :=
  { s with isSpeaking := false }

/-- The pure scheduling recurrence extracted from the audio branch: given a
cursor and a list of (arrival clock time, duration) pairs, produce the
scheduled start times and the final cursor
(`start = max(cursor, now)`, `cursor = start + duration`). -/
def runSchedule : ℚ → List (ℚ × ℚ) → List ℚ × ℚ
  | c, [] => ([], c)
  | c, (now, d) :: rest =>
      (max c now :: (runSchedule (max c now + d) rest).1,
       (runSchedule (max c now + d) rest).2)

/-- The successive cursor values along the same recurrence (initial value
first), used to speak about the cursor for the whole lifetime. -/
def schedCursors : ℚ → List (ℚ × ℚ) → List ℚ
  | c, [] => [c]
  | c, (now, d) :: rest => c :: schedCursors (max c now + d) rest

/-! ## Tool dispatcher (the `msg.toolCall` branch of `onmessage`) -/

/-- One entry of `msg.toolCall.functionCalls`. -/
structure FunctionCall where
  id : String
  name : String
  args : List (String × String)
deriving DecidableEq, Repr

/-- One `functionResponses` entry of `sendToolResponse`. -/
structure ToolResponse where
  name : String
  id : String
  result : String
deriving DecidableEq, Repr

/-- Property access `fc.args[key]`: `none` models `undefined`. -/
def lookupArg (args : List (String × String)) (key : String) : Option String :=
  (args.find? (fun p => p.1 = key)).map Prod.snd

/-- Running one tool call, with the outside world abstracted by `oracle`
(the text produced by the handler's external API work; `Except.error`
models the API call throwing).  `generate_image`, `generate_code` and
`google_search` wrap their whole bodies in `try/catch` and convert any
failure into their fixed error text.  `handleOpenApp` has no `try/catch`:
when `args['appName']` is `undefined`, `appName.toLowerCase()` throws a
`TypeError`, which the loop in `onmessage` does not catch — modelled as
`Except.error`.  An unrecognized name falls through with the initial
`result = "Done"`. -/
def runToolCall (oracle : FunctionCall → Except Unit String)
    (fc : FunctionCall) : Except Unit String :=
  if fc.name = "generate_image" then
    .ok (match oracle fc with
         | .ok t => t
         | .error _ => "Error generating image.")
  else if fc.name = "generate_code" then
    .ok (match oracle fc with
         | .ok t => t
         | .error _ => "Error writing code.")
  else if fc.name = "google_search" then
    .ok (match oracle fc with
         | .ok t => t
         | .error _ => "Error connecting to Google Search.")
  else if fc.name = "open_app" then
    match lookupArg fc.args "appName" with
    | none => .error ()
    | some appName =>
        .ok ("I\x27ve prepared a card to open " ++ appName ++
             ". Please click it to proceed.")
  else .ok "Done"

/-- The `for (const fc of msg.toolCall.functionCalls)` loop: each call is
awaited and exactly one `sendToolResponse` with `{name: fc.name, id: fc.id,
response: {result}}` is issued for it; an uncaught handler exception
rejects the `onmessage` promise, so neither the throwing call nor any
later call in the batch gets a response. -/
def dispatchToolCalls (oracle : FunctionCall → Except Unit String) :
    List FunctionCall → List ToolResponse
  | [] => []
  | fc :: rest =>
      match runToolCall oracle fc with
      | .ok r => ⟨fc.name, fc.id, r⟩ :: dispatchToolCalls oracle rest
      | .error _ => []

/-! ## Post-cleanup sends (interaction of `cleanup` with in-flight
handlers) -/

/-- The pieces of the world a completing handler interacts with: the
component's `sessionRef`, which sessions have been closed, and every
`sendToolResponse` performed so far (tagged with the session handle it was
sent on). -/
structure ToolWorld where
  sessionRef : Option Nat
  closedSessions : List Nat
  sent : List (Nat × ToolResponse)
deriving DecidableEq, Repr

/-- The session-related part of `cleanup()`: close the current session (if
any) and null the ref. -/
def cleanupWorld (w : ToolWorld) : ToolWorld :=
  { w with
      sessionRef := none
      closedSessions := match w.sessionRef with
                        | some id => id :: w.closedSessions
                        | none => w.closedSessions }

/-- A handler finishing for call `fc`: the continuation
`sessionPromise.then(session => session.sendToolResponse(...))` runs on the
session promise captured by the closure, unconditionally — it consults
neither `sessionRef` nor any pending-call table. -/
def handlerComplete (w : ToolWorld) (capturedSession : Nat)
    (resp : ToolResponse) : ToolWorld :=
  { w with sent := (capturedSession, resp) :: w.sent }

/-! ## Sample data used by witnesses and counterexamples -/

/-- A live, connected session: two scheduled playback sources, a cursor at
5 seconds, all device handles held. -/
def sampleLive : SessionState :=
  { status := .connected
    isConnected := true
    isSpeaking := true
    sessionRef := some 1
    processorRef := true
    sourceRef := true
    streamRef := true
    inputContextRef := true
    audioContextRef := true
    nextStartTime := 5
    scheduledSources := [2, 3]
    animRef := 4
    activeCard := none
    isProcessingTool := false }

/-- A session in the middle of `startSession`: `status === 'connecting'`,
not yet connected. -/
def sampleConnecting : SessionState :=
  { sampleLive with
      status := .connecting
      isConnected := false
      isSpeaking := false
      sessionRef := none
      processorRef := false
      sourceRef := false
      scheduledSources := [] }

/-- A world with one open session (handle 7) and nothing sent yet. -/
def sampleWorld : ToolWorld := ⟨some 7, [], []⟩

/-- A tool response for a pending `generate_image` call. -/
def sampleResponse : ToolResponse := ⟨"generate_image", "call-1", "Image displayed."⟩

/-- An oracle on which every external API call succeeds. -/
def okOracle : FunctionCall → Except Unit String := fun _ => .ok "ok"

/-- An oracle on which the image API throws and everything else succeeds. -/
def mixedOracle : FunctionCall → Except Unit String := fun fc =>
  if fc.name = "generate_image" then .error () else .ok "Sunny, 22 degrees."

/-- A batch whose first call is `open_app` without the required `appName`
argument. -/
def badBatch : List FunctionCall :=
  [⟨"call-1", "open_app", []⟩,
   ⟨"call-2", "google_search", [("query", "news")]⟩]

/-- A well-formed batch of two calls. -/
def goodBatch : List FunctionCall :=
  [⟨"call-1", "generate_image", [("prompt", "a red cube")]⟩,
   ⟨"call-2", "google_search", [("query", "weather")]⟩]

/-- The derived speaking signal agrees with non-emptiness of the
live-segment set. -/
def speakingInvariant (s : SessionState) : Prop :=
  s.isSpeaking = true ↔ s.scheduledSources ≠ []

/-! # Theorems -/

/-! ## C3: 16-bit PCM round-trip -/

/-- Wrapping into `[-32768, 32767]` is the identity there. -/
theorem toInt16_id (i : ℤ) (h1 : -32768 ≤ i) (h2 : i ≤ 32767) :
    toInt16 i = i := by
  unfold toInt16
  split <;> omega

/-- C3 counterexample: at the sample value 1 (the top of the nominal
normalized range), `createPcmBlob` computes `1 * 32768 = 32768`, which the
`Int16Array` store wraps to `-32768`; decoding gives `-1`, an error of 2,
not within `±1/32768`. -/
theorem C3_pcm_wrap_counterexample :
    decodeSample (encodeSample 1) = -1 ∧
      ¬ |decodeSample (encodeSample 1) - 1| ≤ 1 / 32768 := by
  norm_num [encodeSample, decodeSample, truncQ, toInt16]

/-- C3 (amended): for every sample x with `-1 ≤ x < 1` — excluding the
exact value 1, which wraps — encoding to 16-bit PCM and decoding back
reproduces x within `±1/32768`. -/
theorem C3_pcm_roundtrip_amended (x : ℚ) (h1 : -1 ≤ x) (h2 : x < 1) :
    |decodeSample (encodeSample x) - x| ≤ 1 / 32768 := by
  have hy1 : (-32768 : ℚ) ≤ x * 32768 := by linarith
  have hy2 : x * 32768 < 32768 := by linarith
  unfold encodeSample truncQ
  by_cases h0 : (0 : ℚ) ≤ x * 32768
  · have hlo : (-32768 : ℤ) ≤ ⌊x * 32768⌋ := by
      have : ((-32768 : ℤ) : ℚ) ≤ x * 32768 := by exact_mod_cast hy1
      exact Int.le_floor.mpr this
    have hhi : ⌊x * 32768⌋ ≤ 32767 := by
      have : ⌊x * 32768⌋ < (32768 : ℤ) := Int.floor_lt.mpr (by exact_mod_cast hy2)
      omega
    rw [if_pos h0, toInt16_id _ hlo hhi]
    have hA : ((⌊x * 32768⌋ : ℤ) : ℚ) ≤ x * 32768 := Int.floor_le _
    have hB : x * 32768 < ((⌊x * 32768⌋ : ℤ) : ℚ) + 1 := Int.lt_floor_add_one _
    rw [decodeSample, abs_le]
    constructor <;> [linarith; linarith]
  · have hyneg : x * 32768 ≤ 0 := le_of_lt (lt_of_not_ge h0)
    have hhi : ⌈x * 32768⌉ ≤ 32767 := by
      have : ⌈x * 32768⌉ ≤ (0 : ℤ) := Int.ceil_le.mpr (by exact_mod_cast hyneg)
      omega
    have hlo : (-32768 : ℤ) ≤ ⌈x * 32768⌉ := by
      have h := Int.le_ceil (x * 32768)
      have : ((-32768 : ℤ) : ℚ) ≤ ((⌈x * 32768⌉ : ℤ) : ℚ) := by
        calc ((-32768 : ℤ) : ℚ) ≤ x * 32768 := by exact_mod_cast hy1
          _ ≤ _ := h
      exact_mod_cast this
    rw [if_neg h0, toInt16_id _ hlo hhi]
    have hA : x * 32768 ≤ ((⌈x * 32768⌉ : ℤ) : ℚ) := Int.le_ceil _
    have hB : ((⌈x * 32768⌉ : ℤ) : ℚ) < x * 32768 + 1 := Int.ceil_lt_add_one _
    rw [decodeSample, abs_le]
    constructor <;> [linarith; linarith]

/-- C3 witness: the amended round-trip bound at the concrete sample 1/2. -/
theorem C3_pcm_roundtrip_witness :
    (-1 : ℚ) ≤ 1 / 2 ∧ (1 / 2 : ℚ) < 1 ∧
      |decodeSample (encodeSample (1 / 2)) - 1 / 2| ≤ 1 / 32768 :=
  ⟨by norm_num, by norm_num,
   C3_pcm_roundtrip_amended (1 / 2) (by norm_num) (by norm_num)⟩

/-! ## C10: base64 round-trip -/

/-- Looking up the character of a 6-bit group recovers the group. -/
theorem b64_table_roundtrip : ∀ n, n < 64 → b64index (b64char n) = some n := by
  decide

/-- No alphabet character is the padding character. -/
theorem b64char_ne_pad : ∀ n, n < 64 → b64char n ≠ '=' := by
  decide

/-- C10: decoding the base64 text produced by `arrayBufferToBase64` with
`base64ToUint8Array` returns the original bytes, element for element. -/
theorem C10_base64_roundtrip :
    ∀ (b : List Nat), (∀ x ∈ b, x < 256) →
      b64decode (b64encode b) = some b
  | [], _ => rfl
  | [a], h => by
      have ha : a < 256 := h a (by simp)
      have e1 := b64_table_roundtrip (a / 4) (by omega)
      have e2 := b64_table_roundtrip (a % 4 * 16) (by omega)
      simp only [b64encode, b64decode, e1, e2]
      simp only [and_self, if_true, Option.some.injEq, List.cons.injEq, and_true]
      omega
  | [a, b], h => by
      have ha : a < 256 := h a (by simp)
      have hb : b < 256 := h b (by simp)
      have e1 := b64_table_roundtrip (a / 4) (by omega)
      have e2 := b64_table_roundtrip (a % 4 * 16 + b / 16) (by omega)
      have e3 := b64_table_roundtrip (b % 16 * 4) (by omega)
      have n3 := b64char_ne_pad (b % 16 * 4) (by omega)
      simp only [b64encode, b64decode, e1, e2, e3, n3, false_and, if_false,
        and_self, if_true, Option.some.injEq, List.cons.injEq, and_true]
      omega
  | a :: b :: c :: rest, h => by
      have ha : a < 256 := h a (by simp)
      have hb : b < 256 := h b (by simp)
      have hc : c < 256 := h c (by simp)
      have ih := C10_base64_roundtrip rest (fun x hx => h x (by simp [hx]))
      have e1 := b64_table_roundtrip (a / 4) (by omega)
      have e2 := b64_table_roundtrip (a % 4 * 16 + b / 16) (by omega)
      have e3 := b64_table_roundtrip (b % 16 * 4 + c / 64) (by omega)
      have e4 := b64_table_roundtrip (c % 64) (by omega)
      have n3 := b64char_ne_pad (b % 16 * 4 + c / 64) (by omega)
      have n4 := b64char_ne_pad (c % 64) (by omega)
      simp only [b64encode, b64decode, e1, e2, e3, e4, n3, n4, false_and,
        if_false, ih, Option.some.injEq, List.cons.injEq]
      refine ⟨by omega, by omega, by omega, trivial⟩

/-- C10 witness: the round trip at a concrete four-byte buffer. -/
theorem C10_base64_roundtrip_witness :
    (∀ x ∈ [72, 105, 33, 255], x < 256) ∧
      b64decode (b64encode [72, 105, 33, 255]) = some [72, 105, 33, 255] :=
  ⟨by decide, C10_base64_roundtrip [72, 105, 33, 255] (by decide)⟩

/-! ## C1: gapless, non-overlapping playback scheduling -/

/-- The first scheduled start time is at or after the initial cursor. -/
theorem runSchedule_fst_head (c : ℚ) (chunks : List (ℚ × ℚ)) :
    ∀ y ∈ (runSchedule c chunks).1.head?, c ≤ y := by
  cases chunks with
  | nil => simp [runSchedule]
  | cons p rest =>
      obtain ⟨now, d⟩ := p
      simp [runSchedule]

/-- Head of the zip of start times with their chunks. -/
theorem runSchedule_zip_head (c : ℚ) (chunks : List (ℚ × ℚ)) :
    ∀ q ∈ ((runSchedule c chunks).1.zip chunks).head?, c ≤ q.1 := by
  cases chunks with
  | nil => simp [runSchedule]
  | cons p rest =>
      obtain ⟨now, d⟩ := p
      intro q hq
      simp [runSchedule] at hq
      subst hq
      exact le_max_left _ _

/-- The list of successive cursors starts with the initial cursor. -/
theorem schedCursors_head (c : ℚ) (chunks : List (ℚ × ℚ)) :
    (schedCursors c chunks).head? = some c := by
  cases chunks with
  | nil => rfl
  | cons p rest =>
      obtain ⟨now, d⟩ := p
      rfl

/-- C1: for every chunk sequence with non-negative durations arriving at
monotone audio-clock times, the recurrence `start = max(cursor, now)`,
`cursor = start + duration` yields non-decreasing start times, consecutive
segments that never overlap (`startᵢ + dᵢ ≤ startᵢ₊₁`), and a cursor
sequence that is non-decreasing for the whole lifetime. -/
theorem C1_schedule_no_overlap (c : ℚ) (chunks : List (ℚ × ℚ))
    (hmono : List.Chain' (· ≤ ·) (chunks.map Prod.fst))
    (hd : ∀ p ∈ chunks, 0 ≤ p.2) :
    List.Chain' (· ≤ ·) (runSchedule c chunks).1 ∧
    List.Chain' (fun p q => p.1 + p.2.2 ≤ q.1)
      ((runSchedule c chunks).1.zip chunks) ∧
    List.Chain' (· ≤ ·) (schedCursors c chunks) := by
  induction chunks generalizing c with
  | nil => simp [runSchedule, schedCursors]
  | cons p rest ih =>
      obtain ⟨now, d⟩ := p
      have hd0 : 0 ≤ d := hd (now, d) (by simp)
      have hdrest : ∀ q ∈ rest, 0 ≤ q.2 := fun q hq => hd q (by simp [hq])
      have hmrest : List.Chain' (· ≤ ·) (rest.map Prod.fst) := by
        rw [List.map_cons] at hmono
        exact hmono.tail
      obtain ⟨ih1, ih2, ih3⟩ := ih (max c now + d) hmrest hdrest
      refine ⟨?_, ?_, ?_⟩
      · show List.Chain' (· ≤ ·)
          (max c now :: (runSchedule (max c now + d) rest).1)
        rw [List.chain'_cons']
        refine ⟨fun y hy => ?_, ih1⟩
        have h1 := runSchedule_fst_head (max c now + d) rest y hy
        have h2 : max c now ≤ max c now + d := by linarith
        linarith
      · show List.Chain' (fun p q => p.1 + p.2.2 ≤ q.1)
          ((max c now, (now, d)) ::
            ((runSchedule (max c now + d) rest).1.zip rest))
        rw [List.chain'_cons']
        refine ⟨fun q hq => ?_, ih2⟩
        exact runSchedule_zip_head (max c now + d) rest q hq
      · show List.Chain' (· ≤ ·) (c :: schedCursors (max c now + d) rest)
        rw [List.chain'_cons']
        refine ⟨fun y hy => ?_, ih3⟩
        rw [schedCursors_head] at hy
        simp only [Option.mem_def, Option.some.injEq] at hy
        have h2 : c ≤ max c now + d := by
          have := le_max_left c now
          linarith
        exact hy ▸ h2

/-- C1 witness: the scheduling guarantees at a concrete three-chunk
sequence. -/
theorem C1_schedule_no_overlap_witness :
    List.Chain' (· ≤ ·)
      (([((0 : ℚ), (1 : ℚ)), (1, 2), (3, 1)]).map Prod.fst) ∧
    (∀ p ∈ [((0 : ℚ), (1 : ℚ)), (1, 2), (3, 1)], 0 ≤ p.2) ∧
    (List.Chain' (· ≤ ·)
        (runSchedule 0 [((0 : ℚ), (1 : ℚ)), (1, 2), (3, 1)]).1 ∧
      List.Chain' (fun p q => p.1 + p.2.2 ≤ q.1)
        ((runSchedule 0 [((0 : ℚ), (1 : ℚ)), (1, 2), (3, 1)]).1.zip
          [((0 : ℚ), (1 : ℚ)), (1, 2), (3, 1)]) ∧
      List.Chain' (· ≤ ·)
        (schedCursors 0 [((0 : ℚ), (1 : ℚ)), (1, 2), (3, 1)])) :=
  ⟨by norm_num [List.chain'_cons], by decide,
   C1_schedule_no_overlap 0 _ (by norm_num [List.chain'_cons]) (by decide)⟩

/-! ## C4: what `cleanup()` establishes -/

/-- C4 counterexample: `cleanup()` does not reset the scheduling cursor.
From a live session whose cursor sits at 5, cleanup returns with the
cursor still at 5 — neither the initial ref value 0 nor any other reset
value; the cursor is only reset by `startSession` (to the new audio
clock). -/
theorem C4_cursor_not_reset_counterexample :
    (cleanup sampleLive).1.nextStartTime = sampleLive.nextStartTime ∧
      sampleLive.nextStartTime ≠ 0 := by decide

/-- C4 (amended): after `cleanup()`, every source that was in the live set
has been stopped (the stop calls are the tail of the emitted effects), the
live set is empty, the speaking signal is false, the state is
Disconnected, the session handle is gone — but the scheduling cursor is
left unchanged, and there is no pending-call table in the code to clear
(handlers are awaited inline in `onmessage`). -/
theorem C4_cleanup_amended (s : SessionState) :
    (∃ pre, (cleanup s).2
        = pre ++ s.scheduledSources.map Effect.stopSource) ∧
    (cleanup s).1.scheduledSources = [] ∧
    (cleanup s).1.isSpeaking = false ∧
    (cleanup s).1.status = SessionStatus.disconnected ∧
    (cleanup s).1.sessionRef = none ∧
    (cleanup s).1.nextStartTime = s.nextStartTime :=
  ⟨⟨_, rfl⟩, rfl, rfl, rfl, rfl, rfl⟩

/-! ## C6: idempotence of `cleanup()` -/

/-- C6: running `cleanup()` twice gives the same state as running it once
— the second run changes nothing — the state is Disconnected after both
runs, and the second run's only external call is the (idempotent)
`cancelAnimationFrame`: it stops no source and closes no handle. -/
theorem C6_cleanup_idempotent (s : SessionState) :
    (cleanup (cleanup s).1).1 = (cleanup s).1 ∧
    (cleanup s).1.status = SessionStatus.disconnected ∧
    (cleanup (cleanup s).1).1.status = SessionStatus.disconnected ∧
    (cleanup (cleanup s).1).2
      = (if s.animRef ≠ 0 then [Effect.cancelAnim s.animRef] else []) := by
  refine ⟨rfl, rfl, rfl, ?_⟩
  simp [cleanup]

/-! ## C5: `start()` while a session is active -/

/-- C5 counterexample: `startSession` itself checks nothing: invoked on a
connected session it opens a new transport and mutates the session (here
it moves the cursor); no `AlreadyActiveError` exists anywhere in the
code. -/
theorem C5_start_unguarded_counterexample :
    Effect.openTransport 9 ∈ (startSession sampleLive 0 true 9).2 ∧
      (startSession sampleLive 0 true 9).1 ≠ sampleLive := by decide

/-- C5 (amended): the rejection is done by the UI, not by `startSession`:
while connected the Start button is not rendered and while connecting it
is disabled, so triggering start through the rendered control in either
state is a silent no-op — no new transport is opened and the session state
is unchanged (and no `AlreadyActiveError` is raised, since none exists). -/
theorem C5_start_noop_amended (s : SessionState) (now : ℚ) (micOk : Bool)
    (ns : Nat)
    (h : s.isConnected = true ∨ s.status = SessionStatus.connecting) :
    startButton s now micOk ns = (s, []) := by
  unfold startButton
  rcases h with h | h <;> simp [h]

/-- C5 witness: the no-op at a concrete connecting session. -/
theorem C5_start_noop_witness :
    (sampleConnecting.isConnected = true ∨
        sampleConnecting.status = SessionStatus.connecting) ∧
      startButton sampleConnecting 0 true 9 = (sampleConnecting, []) :=
  ⟨Or.inr rfl, C5_start_noop_amended sampleConnecting 0 true 9 (Or.inr rfl)⟩

/-! ## C7: a malformed inbound chunk -/

/-- C7 counterexample: a chunk whose payload decodes to an odd number of
bytes ("QQ==" is one byte, so `new Int16Array` throws) is dropped — no
segment is scheduled — but the cursor is NOT unchanged: it was already
advanced to `max(cursor, currentTime)` on line 408, before the decode, so
at clock time 7 a session with cursor 5 ends up with cursor 7. -/
theorem C7_cursor_bumped_counterexample :
    decodeChunk "QQ==".toList = none ∧
    (processAudioChunk sampleLive 7 "QQ==".toList 9).scheduledSources
        = sampleLive.scheduledSources ∧
    (processAudioChunk sampleLive 7 "QQ==".toList 9).nextStartTime
        ≠ sampleLive.nextStartTime := by decide

/-- C7 (amended): a decode failure drops only that chunk: no segment is
scheduled and the session status is untouched.  The cursor may have been
advanced to `max(cursor, now)` by the failed chunk, but because the audio
clock is monotone this bump is absorbed: any later chunk arriving at time
`t ≥ now` gets start time `max(cursor, t)` exactly as if the failed chunk
had never arrived. -/
theorem C7_drop_chunk_amended (s : SessionState) (now t : ℚ)
    (payload : List Char) (src : Nat)
    (hfail : decodeChunk payload = none) (hle : now ≤ t) :
    (processAudioChunk s now payload src).scheduledSources
        = s.scheduledSources ∧
    (processAudioChunk s now payload src).status = s.status ∧
    max (processAudioChunk s now payload src).nextStartTime t
        = max s.nextStartTime t := by
  unfold processAudioChunk
  cases hctx : s.audioContextRef with
  | false => simp
  | true =>
      simp only [hfail, if_true]
      refine ⟨trivial, trivial, ?_⟩
      rw [max_assoc, max_eq_right hle]

/-- C7 witness: the amended property at a live session, a concrete bad
chunk at clock 7 and a following arrival at clock 8. -/
theorem C7_drop_chunk_witness :
    decodeChunk "QQ==".toList = none ∧ (7 : ℚ) ≤ 8 ∧
      ((processAudioChunk sampleLive 7 "QQ==".toList 9).scheduledSources
          = sampleLive.scheduledSources ∧
       (processAudioChunk sampleLive 7 "QQ==".toList 9).status
          = sampleLive.status ∧
       max (processAudioChunk sampleLive 7 "QQ==".toList 9).nextStartTime 8
          = max sampleLive.nextStartTime 8) :=
  ⟨by decide, by norm_num,
   C7_drop_chunk_amended sampleLive 7 8 "QQ==".toList 9 (by decide)
     (by norm_num)⟩

/-! ## C9: the derived speaking signal -/

/-- C9 counterexample: `turnComplete` sets the speaking signal to false
without touching the live-segment set, so from a state where the invariant
holds (two live segments, speaking) it produces a state with live segments
but speaking = false: the claimed iff is not preserved by turn
completion. -/
theorem C9_turn_complete_counterexample :
    speakingInvariant sampleLive ∧
      ¬ speakingInvariant (turnCompleteEvent sampleLive) := by
  unfold speakingInvariant turnCompleteEvent
  decide

/-- C9 (amended): the iff `speaking ↔ live set non-empty` is preserved by
a successfully decoded chunk arrival, by natural segment completion, and
by cleanup — but not by `turnComplete` (see the counterexample), and a
chunk whose decode fails sets speaking with no segment added. -/
theorem C9_speaking_invariant_amended (s : SessionState) (now : ℚ)
    (payload : List Char) (src src2 : Nat)
    (hinv : speakingInvariant s) :
    ((decodeChunk payload).isSome = true →
        speakingInvariant (processAudioChunk s now payload src)) ∧
    speakingInvariant (endedEvent s src2) ∧
    speakingInvariant (cleanup s).1 := by
  refine ⟨?_, ?_, ?_⟩
  · intro hsome
    obtain ⟨samples, hdec⟩ := Option.isSome_iff_exists.mp hsome
    unfold processAudioChunk
    cases hctx : s.audioContextRef with
    | false => simpa using hinv
    | true => simp [hdec, speakingInvariant]
  · unfold endedEvent speakingInvariant
    by_cases hrem : (s.scheduledSources.erase src2).length = 0
    · have hnil : s.scheduledSources.erase src2 = [] :=
        List.length_eq_zero.mp hrem
      simp [hrem, hnil]
    · have hne : s.scheduledSources.erase src2 ≠ [] := by
        intro hnil
        exact hrem (by simp [hnil])
      have horig : s.scheduledSources ≠ [] := by
        intro hnil
        exact hne (by simp [hnil])
      simp [hrem, hne, hinv.mpr horig]
  · simp [cleanup, speakingInvariant]

/-- C9 witness: the amended preservation at a live session, a valid chunk
("AAA=", two zero bytes), and the completion of segment 2. -/
theorem C9_speaking_invariant_witness :
    speakingInvariant sampleLive ∧
      (((decodeChunk "AAA=".toList).isSome = true →
          speakingInvariant
            (processAudioChunk sampleLive 6 "AAA=".toList 9)) ∧
       speakingInvariant (endedEvent sampleLive 2) ∧
       speakingInvariant (cleanup sampleLive).1) :=
  ⟨by unfold speakingInvariant; decide,
   C9_speaking_invariant_amended sampleLive 6 "AAA=".toList 9 2
     (by unfold speakingInvariant; decide)⟩

/-! ## C2: one ToolResult per tool call -/

/-- Every call whose `open_app` argument requirement is met runs to a
result text: the other three handlers convert their failures internally,
and an unknown name keeps the initial `"Done"`. -/
theorem runToolCall_isOk (oracle : FunctionCall → Except Unit String)
    (fc : FunctionCall)
    (h : fc.name = "open_app" → lookupArg fc.args "appName" ≠ none) :
    ∃ r, runToolCall oracle fc = Except.ok r := by
  unfold runToolCall
  split
  · exact ⟨_, rfl⟩
  · split
    · exact ⟨_, rfl⟩
    · split
      · exact ⟨_, rfl⟩
      · split
        · next h4 =>
            cases hl : lookupArg fc.args "appName" with
            | none => exact absurd hl (h h4)
            | some appName =>
                exact ⟨"I\x27ve prepared a card to open " ++ appName ++
                  ". Please click it to proceed.", rfl⟩
        · exact ⟨_, rfl⟩

/-- C2 counterexample: a two-call batch whose first call is `open_app`
without the required `appName` argument produces zero responses, not two:
`appName.toLowerCase()` throws a `TypeError` that nothing catches
(`handleOpenApp` is the one handler with no try/catch), rejecting the
`onmessage` promise and skipping the second call entirely. -/
theorem C2_batch_counterexample :
    (dispatchToolCalls okOracle badBatch).length ≠ badBatch.length := by
  decide

/-- C2 (amended): for every batch in which each `open_app` call carries its
required `appName` argument, exactly k responses are sent for k calls, the
i-th response carrying the id and name of the i-th call — regardless of
the outcome of each handler's external work, since the three network
handlers convert failures to textual results internally. -/
theorem C2_batch_results_amended (oracle : FunctionCall → Except Unit String)
    (calls : List FunctionCall)
    (h : ∀ fc ∈ calls,
        fc.name = "open_app" → lookupArg fc.args "appName" ≠ none) :
    (dispatchToolCalls oracle calls).length = calls.length ∧
    (dispatchToolCalls oracle calls).map (fun r => r.id)
        = calls.map (fun fc => fc.id) ∧
    (dispatchToolCalls oracle calls).map (fun r => r.name)
        = calls.map (fun fc => fc.name) := by
  induction calls with
  | nil => simp [dispatchToolCalls]
  | cons fc rest ih =>
      obtain ⟨r, hr⟩ := runToolCall_isOk oracle fc (h fc (by simp))
      obtain ⟨i1, i2, i3⟩ := ih (fun g hg => h g (by simp [hg]))
      refine ⟨?_, ?_, ?_⟩ <;> simp [dispatchToolCalls, hr, i1, i2, i3]

/-- C2 witness: the amended dispatch guarantee at a concrete two-call
batch whose image handler fails (its API throws) and whose search handler
succeeds. -/
theorem C2_batch_results_witness :
    (∀ fc ∈ goodBatch,
        fc.name = "open_app" → lookupArg fc.args "appName" ≠ none) ∧
      ((dispatchToolCalls mixedOracle goodBatch).length = goodBatch.length ∧
       (dispatchToolCalls mixedOracle goodBatch).map (fun r => r.id)
          = goodBatch.map (fun fc => fc.id) ∧
       (dispatchToolCalls mixedOracle goodBatch).map (fun r => r.name)
          = goodBatch.map (fun fc => fc.name)) :=
  ⟨by decide, C2_batch_results_amended mixedOracle goodBatch (by decide)⟩

/-! ## C8: results of handlers still in flight at cleanup -/

/-- C8 counterexample: a handler that completes after `cleanup()` still
sends: from a world with open session 7 and nothing sent, cleanup followed
by the handler's completion leaves one ToolResult sent — the claimed
"never sends post-cleanup" is false.  The continuation holds the captured
`sessionPromise`, and no pending-call table exists to consult. -/
theorem C8_post_cleanup_send_counterexample :
    (handlerComplete (cleanupWorld sampleWorld) 7 sampleResponse).sent
        = [(7, sampleResponse)] ∧
      (cleanupWorld sampleWorld).sessionRef = none := by decide

/-- C8 (amended): after cleanup, a completing in-flight handler still
performs its `sendToolResponse` — on the captured session handle, which
cleanup has closed; the component has no pending-call table, so nothing
discards the result. -/
theorem C8_post_cleanup_send_amended (w : ToolWorld) (cap : Nat)
    (resp : ToolResponse) (h : w.sessionRef = some cap) :
    (cap, resp) ∈ (handlerComplete (cleanupWorld w) cap resp).sent ∧
    cap ∈ (handlerComplete (cleanupWorld w) cap resp).closedSessions ∧
    (cleanupWorld w).sessionRef = none := by
  refine ⟨by simp [handlerComplete], ?_, rfl⟩
  simp [handlerComplete, cleanupWorld, h]

/-- C8 witness: the amended statement at the concrete one-session world. -/
theorem C8_post_cleanup_send_witness :
    sampleWorld.sessionRef = some 7 ∧
      ((7, sampleResponse)
          ∈ (handlerComplete (cleanupWorld sampleWorld) 7 sampleResponse).sent ∧
       7 ∈ (handlerComplete (cleanupWorld sampleWorld) 7
              sampleResponse).closedSessions ∧
       (cleanupWorld sampleWorld).sessionRef = none) :=
  ⟨rfl, C8_post_cleanup_send_amended sampleWorld 7 sampleResponse rfl⟩

end Textgt
